import Mathlib

/-!
Verification of the Guardian AI risk-adaptive content-moderation pipeline.

The repository ships the React frontend (upload validation, status badge,
API client, status union type) and extensive design documentation for the
six backend microservices (ingestion, fast screening, deep vision, policy
engine, human review, notification).  The frontend components are embedded
here directly from their TypeScript source.  The backend worker logic is
not part of the shipped source tree, so it is modelled from the
specification (each such definition is marked `Modelled from the spec:`).
Scores are represented as rationals.
-/

namespace Guardian

/-- Status union type of the frontend, from src/frontend/src/types/index.ts:
`VideoStatus = uploaded | screened | analyzed | approved | rejected | review
| processing | gpu_queued | approve | reject` (the comment in the source
says it includes both display and API values). -/
inductive VideoStatus where
  | uploaded | screened | analyzed | approved | rejected | review
  | processing | gpu_queued | approve | reject
deriving DecidableEq, Repr

/-- String carried by each member of the frontend status union. -/
def VideoStatus.str : VideoStatus → String
  | .uploaded => "uploaded"
  | .screened => "screened"
  | .analyzed => "analyzed"
  | .approved => "approved"
  | .rejected => "rejected"
  | .review => "review"
  | .processing => "processing"
  | .gpu_queued => "gpu_queued"
  | .approve => "approve"
  | .reject => "reject"

/-- Every member of the frontend status union, in source order. -/
def vsAll : List VideoStatus :=
  [.uploaded, .screened, .analyzed, .approved, .rejected, .review,
   .processing, .gpu_queued, .approve, .reject]

/-- The set of status strings the frontend type admits. -/
def videoStatusStrings : List String := vsAll.map VideoStatus.str

/-- Modelled from the spec (for comparison with the code): the seven-value
closed status enum the specification claims:
uploaded, screened, analyzed, approved, rejected, review, failed. -/
def specStatusStrings : List String :=
  ["uploaded", "screened", "analyzed", "approved", "rejected", "review", "failed"]

/-- Configuration of a rendered status chip in StatusBadge.tsx: label,
Material-UI color, and icon component name. -/
structure ChipConfig where
  label : String
  color : String
  icon : String
deriving DecidableEq, Repr

/-- Chip shown for records still being processed (StatusBadge.tsx). -/
def processingChip : ChipConfig :=
  { label := "Processing", color := "default", icon := "HourglassEmpty" }

/-- Embeds getStatusConfig of
src/frontend/src/components/StatusBadge.tsx (the variant taking the
optional decision): a pending decision short-circuits to the Processing
chip before the status switch; the switch pairs approved with approve and
rejected with reject, and contains (unreachable) inner pending checks in
the screened and analyzed branches. -/
def getStatusConfig (status : VideoStatus) (decision : Option String) : ChipConfig :=
  if decision = some "pending" then
    processingChip
  else
    match status with
    | .approved | .approve =>
      { label := "Approved", color := "success", icon := "CheckCircle" }
    | .rejected | .reject =>
      { label := "Rejected", color := "error", icon := "Cancel" }
    | .review =>
      { label := "Pending Review", color := "warning", icon := "RateReview" }
    | .uploaded =>
      { label := "Uploaded", color := "info", icon := "CloudUpload" }
    | .screened =>
      if decision = some "pending" then processingChip
      else { label := "Screened", color := "info", icon := "Psychology" }
    | .analyzed =>
      if decision = some "pending" then processingChip
      else { label := "Analyzed", color := "info", icon := "Psychology" }
    | .processing | .gpu_queued => processingChip

/-- Accepted upload formats, the default of UploadZone.tsx. -/
def acceptedFormats : List String := [".mp4", ".mov", ".avi"]

/-- Maximum upload size in megabytes, the default of UploadZone.tsx. -/
def maxSizeMB : ℚ := 500

/-- Splits a character list at every occurrence of the separator,
mirroring the JavaScript string split used by UploadZone.validateFile.
The result is never empty. -/
def splitOnChar (c : Char) : List Char → List (List Char)
  | [] => [[]]
  | x :: xs =>
    let r := splitOnChar c xs
    if x = c then [] :: r
    else
      match r with
      | [] => [[x]]
      | y :: ys => (x :: y) :: ys

/-- Extension computed by UploadZone.validateFile: a dot followed by the
lower-cased text after the last dot of the file name (the whole name when
it has no dot, as in the JavaScript split and pop). -/
def fileExtension (name : String) : String :=
  "." ++ String.mk (((splitOnChar '.' name.data).getLastD []).map Char.toLower)

/-- Embeds UploadZone.validateFile: rejects an extension outside the
accepted formats, then rejects a size whose megabyte value strictly
exceeds the limit; returns none when the file is accepted. -/
def validateFile (name : String) (sizeBytes : ℕ) : Option String :=
  if !(acceptedFormats.contains (fileExtension name)) then
    some "Invalid file format. Accepted formats: .mp4, .mov, .avi"
  else if maxSizeMB < (sizeBytes : ℚ) / (1024 * 1024) then
    some "File too large. Maximum size: 500MB"
  else none

/-- Outcome of UploadZone.handleFile: either the validation error is shown
and no upload starts, or the upload is started. -/
inductive UploadOutcome where
  | rejected (msg : String)
  | started
deriving DecidableEq, Repr

/-- Embeds the validation branch of UploadZone.handleFile: a validation
error is surfaced and the upload is not started; otherwise the upload
proceeds. -/
def handleFile (name : String) (sizeBytes : ℕ) : UploadOutcome :=
  match validateFile name sizeBytes with
  | some m => .rejected m
  | none => .started

/-- Embeds the score-combination lines of deep-vision/app.py as quoted in
src/docs/MINIMAL_MLOPS_GUIDE.md: when either custom-model score is
positive the nsfw sub-score blends custom and CLIP at the literal weights
0.7 and 0.3; otherwise it is the CLIP score scaled by the literal 0.85. -/
def combineNsfw (nsfwCustom violenceCustom clipNsfw : ℚ) : ℚ :=
  if 0 < nsfwCustom ∨ 0 < violenceCustom then
    nsfwCustom * (7 / 10) + clipNsfw * (3 / 10)
  else
    clipNsfw * (17 / 20)

/-- Modelled from the spec: the pipeline state machine states of the
Video Record status field (the backend services are not in the shipped
source tree). -/
inductive Status where
  | uploaded | screened | analyzed | approved | rejected | review | failed
deriving DecidableEq, Repr

/-- Modelled from the spec: the decision field of a Video Record. -/
inductive Decision where
  | pending | approve | reject | review
deriving DecidableEq, Repr

/-- Modelled from the spec: the mutable Video Record held in the Record
Store, one per artifact. -/
structure VideoRecord where
  id : ℕ
  status : Status
  riskScore : Option ℚ := none
  nsfwScore : Option ℚ := none
  violenceScore : Option ℚ := none
  finalScore : Option ℚ := none
  decision : Decision := .pending
  framesAnalyzed : ℕ := 0
  humanReviewed : Bool := false
  reviewerNotes : Option String := none
  errorMsg : Option String := none
  screenedAt : Option ℕ := none
  analyzedAt : Option ℕ := none
  decidedAt : Option ℕ := none
  reviewedAt : Option ℕ := none
deriving DecidableEq, Repr

/-- Modelled from the spec: an append-only Event Log entry (only the
fields the claims mention). -/
structure Event where
  videoId : ℕ
  eventType : String
deriving DecidableEq, Repr

/-- Modelled from the spec: configuration of the Decision Engine score
combination (the weights are configuration, not constants). -/
structure Config where
  wRisk : ℚ
  wNsfw : ℚ
  wViolence : ℚ
deriving DecidableEq, Repr

/-- Clamp a score into the unit interval, as required of every persisted
score. -/
def clamp01 (q : ℚ) : ℚ := max 0 (min 1 q)

/-- Modelled from the spec: the Policy Engine thresholds, with the
configured constants AUTO_APPROVE_THRESHOLD = 0.2 and
AUTO_REJECT_THRESHOLD = 0.8: below 0.2 approve, above 0.8 reject,
the closed interval between them goes to human review. -/
def decideScore (finalScore : ℚ) : Decision :=
  if finalScore < 2 / 10 then .approve
  else if 8 / 10 < finalScore then .reject
  else .review

/-- Modelled from the spec: the status written alongside each decision. -/
def statusOfDecision : Decision → Status
  | .approve => .approved
  | .reject => .rejected
  | .review => .review
  | .pending => .uploaded

/-- Modelled from the spec: the Decision Engine final-score combination.
When only the risk score is present (the low-risk path) the final score
is the risk score itself; otherwise the available scores are combined
with the configured weights. -/
def finalScoreOf (cfg : Config) (r : VideoRecord) : ℚ :=
  match r.nsfwScore, r.violenceScore with
  | none, none => (r.riskScore).getD 0
  | _, _ =>
      cfg.wRisk * (r.riskScore).getD 0 + cfg.wNsfw * (r.nsfwScore).getD 0
        + cfg.wViolence * (r.violenceScore).getD 0

/-- Result of one Decision Engine invocation: the updated record, the
appended events, and whether the Outcome Dispatcher was invoked. -/
structure EngineResult where
  record : VideoRecord
  events : List Event
  dispatched : Bool
deriving DecidableEq, Repr

/-- Modelled from the spec: the Decision Engine. Computes the final
score, applies the thresholds, sets decision, status and decided_at,
appends a decided event, and invokes the Outcome Dispatcher for an
auto approve or reject (a review record becomes visible to the Human
Review Manager through its status alone). -/
def decisionEngine (cfg : Config) (now : ℕ) (r : VideoRecord) : EngineResult :=
  let fs := finalScoreOf cfg r
  let d := decideScore fs
  { record := { r with finalScore := some fs, decision := d,
                       status := statusOfDecision d, decidedAt := some now }
    events := [{ videoId := r.id, eventType := "decided" }]
    dispatched := match d with | .review => false | _ => true }

/-- Modelled from the spec: run an opaque scorer up to a fixed number of
attempts, returning the first success among attempts 0, ..., limit - 1. -/
def retryScore (scorer : ℕ → Option ℚ) : ℕ → Option ℚ
  | 0 => none
  | n + 1 =>
    match retryScore scorer n with
    | some s => some s
    | none => scorer n

/-- Result of one worker handling one queue message: the resulting
record, appended events, the messages published to the escalation (GPU)
queue, whether the Decision Engine was invoked, whether the Outcome
Dispatcher was invoked, and whether the message was acknowledged.  The
worker is a total function: no exception escapes it. -/
structure WorkerResult where
  record : VideoRecord
  events : List Event
  escalated : List ℕ
  decisionInvoked : Bool
  dispatched : Bool
  acked : Bool
deriving DecidableEq, Repr

/-- Result of acknowledging and discarding a duplicate delivery: the
record untouched, nothing appended, nothing published. -/
def noopResult (r : VideoRecord) : WorkerResult :=
  { record := r, events := [], escalated := [], decisionInvoked := false,
    dispatched := false, acked := true }

/-- Modelled from the spec: the screening mutation of Fast Screening
(persist the clamped risk score, advance to screened, stamp
screened_at). -/
def screenedRecord (r : VideoRecord) (risk : ℚ) (now : ℕ) : VideoRecord :=
  { r with riskScore := some risk, status := .screened, screenedAt := some now }

/-- Modelled from the spec: the Fast Screening worker handling one
primary-queue message.  A record not in status uploaded is a duplicate
delivery: acknowledged and discarded.  Otherwise the scorer is retried
up to the limit; exhaustion marks the record failed with the error
recorded, one screening_failed event, and the message acknowledged.  On
success the clamped risk score is persisted with status screened; a risk
at most 0.3 invokes the Decision Engine directly, a risk above 0.3
publishes exactly one message to the escalation queue instead. -/
def fastScreenWorker (cfg : Config) (scorer : ℕ → Option ℚ) (limit : ℕ)
    (now : ℕ) (r : VideoRecord) : WorkerResult :=
  if r.status = .uploaded then
    match retryScore scorer limit with
    | none =>
        { record := { r with status := .failed, errorMsg := some "scorer failure" }
          events := [{ videoId := r.id, eventType := "screening_failed" }]
          escalated := [], decisionInvoked := false, dispatched := false,
          acked := true }
    | some s =>
        if clamp01 s ≤ 3 / 10 then
          { record := (decisionEngine cfg now (screenedRecord r (clamp01 s) now)).record
            events := { videoId := r.id, eventType := "screened" } ::
              (decisionEngine cfg now (screenedRecord r (clamp01 s) now)).events
            escalated := [], decisionInvoked := true,
            dispatched := (decisionEngine cfg now (screenedRecord r (clamp01 s) now)).dispatched,
            acked := true }
        else
          { record := screenedRecord r (clamp01 s) now
            events := [{ videoId := r.id, eventType := "screened" }]
            escalated := [r.id], decisionInvoked := false, dispatched := false,
            acked := true }
  else noopResult r

/-- Modelled from the spec: the analysis mutation of Deep Analysis
(persist both clamped sub-scores and the frame count, advance to
analyzed, stamp analyzed_at). -/
def analyzedRecord (r : VideoRecord) (ns vs : ℚ) (frames now : ℕ) : VideoRecord :=
  { r with nsfwScore := some (clamp01 ns), violenceScore := some (clamp01 vs),
           framesAnalyzed := frames, status := .analyzed, analyzedAt := some now }

/-- Modelled from the spec: the Deep Analysis worker handling one
escalation-queue message.  A record not in status screened is a
duplicate delivery: acknowledged and discarded.  Scorer exhaustion on
either sub-score marks the record failed exactly as in Fast Screening.
On success both sub-scores are persisted with status analyzed and the
Decision Engine is invoked. -/
def deepAnalysisWorker (cfg : Config) (nsfwScorer violenceScorer : ℕ → Option ℚ)
    (limit frames now : ℕ) (r : VideoRecord) : WorkerResult :=
  if r.status = .screened then
    match retryScore nsfwScorer limit, retryScore violenceScorer limit with
    | some ns, some vs =>
        { record := (decisionEngine cfg now (analyzedRecord r ns vs frames now)).record
          events := { videoId := r.id, eventType := "analyzed" } ::
            (decisionEngine cfg now (analyzedRecord r ns vs frames now)).events
          escalated := [], decisionInvoked := true,
          dispatched := (decisionEngine cfg now (analyzedRecord r ns vs frames now)).dispatched,
          acked := true }
    | _, _ =>
        { record := { r with status := .failed, errorMsg := some "scorer failure" }
          events := [{ videoId := r.id, eventType := "analysis_failed" }]
          escalated := [], decisionInvoked := false, dispatched := false,
          acked := true }
  else noopResult r

/-- Modelled from the spec: failure modes of SubmitVerdict. -/
inductive VerdictError where
  | NotFound
  | InvalidState
deriving DecidableEq, Repr

/-- Result of SubmitVerdict: the record store after the call, the
outcome, the appended events, and whether the Outcome Dispatcher was
invoked. -/
structure VerdictOutcome where
  store : List VideoRecord
  result : Except VerdictError Unit
  events : List Event
  dispatched : Bool

/-- Modelled from the spec: the reviewed record written by a successful
SubmitVerdict. -/
def verdictRecord (r : VideoRecord) (approved : Bool) (notes : String)
    (now : ℕ) : VideoRecord :=
  { r with decision := if approved then .approve else .reject,
           status := if approved then .approved else .rejected,
           humanReviewed := true, reviewerNotes := some notes,
           reviewedAt := some now }

/-- Modelled from the spec: SubmitVerdict of the Human Review Manager.
Fails with NotFound when no record carries the id, fails with
InvalidState when the record is not in status review, and in both
failure cases leaves the store untouched; on success writes the verdict,
appends a reviewed event and invokes the Outcome Dispatcher. -/
def submitVerdict (store : List VideoRecord) (id : ℕ) (approved : Bool)
    (notes : String) (now : ℕ) : VerdictOutcome :=
  match store.find? (fun x => x.id == id) with
  | none =>
      { store := store, result := .error .NotFound, events := [], dispatched := false }
  | some r =>
      if r.status = .review then
        { store := store.map (fun x => if x.id == id then verdictRecord x approved notes now else x),
          result := .ok (), events := [{ videoId := id, eventType := "reviewed" }],
          dispatched := true }
      else
        { store := store, result := .error .InvalidState, events := [], dispatched := false }

/-- Sample Decision Engine weight configuration used by the concrete
scenarios (weights are configuration, not constants of the code). -/
def cfg0 : Config := { wRisk := 25 / 100, wNsfw := 40 / 100, wViolence := 35 / 100 }

/-- Freshly ingested record used by the escalation-gate scenario. -/
def rec0 : VideoRecord := { id := 7, status := .uploaded }

/-- Freshly ingested record used by the duplicate-delivery scenario. -/
def rec4 : VideoRecord := { id := 4, status := .uploaded }

/-- Escalated record used by the duplicate-delivery scenario. -/
def rec4s : VideoRecord := { id := 5, status := .screened, riskScore := some (1 / 2) }

/-- Record awaiting human review, used by the verdict scenario. -/
def recReview : VideoRecord :=
  { id := 3, status := .review, riskScore := some (1 / 2),
    finalScore := some (45 / 100), decision := .review }

/-- One-record store used by the verdict scenario. -/
def store3 : List VideoRecord := [recReview]

/-- Freshly ingested record used by the low-risk scenario. -/
def recLow : VideoRecord := { id := 10, status := .uploaded }

/-- Screened low-risk record used by the final-score witness. -/
def recW5 : VideoRecord := { id := 11, status := .screened, riskScore := some (3 / 20) }

/-- Freshly ingested record used by the retry-exhaustion scenario. -/
def rec7 : VideoRecord := { id := 12, status := .uploaded }

theorem decideScore_ne_pending (q : ℚ) : decideScore q ≠ Decision.pending := by
  unfold decideScore
  split_ifs <;> simp

theorem statusOfDecision_decideScore (q : ℚ) :
    statusOfDecision (decideScore q) = Status.approved ∨
    statusOfDecision (decideScore q) = Status.rejected ∨
    statusOfDecision (decideScore q) = Status.review := by
  unfold decideScore
  split_ifs <;> simp [statusOfDecision]

/-- C1: the Decision Engine assigns approve exactly below 0.2, reject
exactly above 0.8, and review exactly on the closed interval between
them; both boundaries route to review; and the engine writes exactly the
thresholded decision of the combined final score onto the record. -/
theorem decision_thresholds_correct : ∀ q : ℚ,
    (decideScore q = Decision.approve ↔ q < 2 / 10) ∧
    (decideScore q = Decision.reject ↔ 8 / 10 < q) ∧
    (decideScore q = Decision.review ↔ 2 / 10 ≤ q ∧ q ≤ 8 / 10) ∧
    decideScore (2 / 10) = Decision.review ∧
    decideScore (8 / 10) = Decision.review ∧
    ∀ (cfg : Config) (now : ℕ) (r : VideoRecord),
      (decisionEngine cfg now r).record.decision = decideScore (finalScoreOf cfg r) := by
  intro q
  have happ : decideScore q = Decision.approve ↔ q < 2 / 10 := by
    constructor
    · intro h
      by_contra hq
      unfold decideScore at h
      rw [if_neg hq] at h
      split_ifs at h
    · intro h
      unfold decideScore
      rw [if_pos h]
  have hrej : decideScore q = Decision.reject ↔ 8 / 10 < q := by
    constructor
    · intro h
      unfold decideScore at h
      split_ifs at h with h1 h2
      exact h2
    · intro h
      unfold decideScore
      rw [if_neg (not_lt.mpr (by linarith)), if_pos h]
  have hrev : decideScore q = Decision.review ↔ 2 / 10 ≤ q ∧ q ≤ 8 / 10 := by
    constructor
    · intro h
      unfold decideScore at h
      split_ifs at h with h1 h2
      exact ⟨not_lt.mp h1, not_lt.mp h2⟩
    · rintro ⟨ha, hb⟩
      unfold decideScore
      rw [if_neg (not_lt.mpr ha), if_neg (not_lt.mpr hb)]
  have hb1 : decideScore (2 / 10) = Decision.review := by
    unfold decideScore
    rw [if_neg (by norm_num), if_neg (by norm_num)]
  have hb2 : decideScore (8 / 10) = Decision.review := by
    unfold decideScore
    rw [if_neg (by norm_num), if_neg (by norm_num)]
  exact ⟨happ, hrej, hrev, hb1, hb2, fun cfg now r => rfl⟩

/-- C10: the status badge renders the Processing chip whenever the
decision field is pending, for every status value, approved and rejected
included. -/
theorem statusBadge_pending_processing :
    (∀ s : VideoStatus, getStatusConfig s (some "pending") = processingChip) ∧
    processingChip.label = "Processing" :=
  ⟨fun s => by cases s <;> rfl, rfl⟩

/-- C6 counterexample: the status union of the code admits the value
processing, which lies outside the claimed seven-value enum, and does
not admit the claimed value failed; so the status field does not range
over exactly that seven-value enum. -/
theorem videoStatus_seven_enum_cex :
    "processing" ∈ videoStatusStrings ∧ "processing" ∉ specStatusStrings ∧
    "failed" ∈ specStatusStrings ∧ "failed" ∉ videoStatusStrings := by
  decide

/-- C6 (amended): the status field of the frontend ranges over exactly
the closed ten-value union uploaded, screened, analyzed, approved,
rejected, review, processing, gpu_queued, approve, reject; failed is not
among them. -/
theorem videoStatus_ten_union :
    (∀ s : VideoStatus, s ∈ vsAll) ∧
    videoStatusStrings =
      ["uploaded", "screened", "analyzed", "approved", "rejected", "review",
       "processing", "gpu_queued", "approve", "reject"] ∧
    "failed" ∉ videoStatusStrings ∧ videoStatusStrings.Nodup :=
  ⟨fun s => by cases s <;> decide, rfl, by decide, by decide⟩

theorem size_check_iff (n : ℕ) :
    (maxSizeMB < (n : ℚ) / (1024 * 1024)) ↔ 524288000 < n := by
  rw [lt_div_iff₀ (by norm_num : (0 : ℚ) < 1024 * 1024)]
  have h500 : maxSizeMB * (1024 * 1024) = (524288000 : ℚ) := by norm_num [maxSizeMB]
  rw [h500]
  exact_mod_cast Iff.rfl

/-- C9: a file passes validation exactly when its computed extension is
one of the accepted formats and its size is at most 500 MB (the
megabyte check is a strict inequality, so exactly 524288000 bytes
passes); a rejected file surfaces the error message and never starts
the upload. -/
theorem validateFile_accepts_iff :
    ∀ (name : String) (sizeBytes : ℕ),
      (validateFile name sizeBytes = none ↔
        acceptedFormats.contains (fileExtension name) = true ∧ sizeBytes ≤ 524288000) ∧
      (handleFile name sizeBytes = UploadOutcome.started ↔
        validateFile name sizeBytes = none) ∧
      (∀ m, handleFile name sizeBytes = UploadOutcome.rejected m ↔
        validateFile name sizeBytes = some m) ∧
      validateFile "video.mp4" 524288000 = none := by
  intro name sizeBytes
  have hmain : validateFile name sizeBytes = none ↔
      acceptedFormats.contains (fileExtension name) = true ∧ sizeBytes ≤ 524288000 := by
    unfold validateFile
    cases hc : acceptedFormats.contains (fileExtension name) with
    | false => simp [hc]
    | true =>
        simp only [hc, Bool.not_true, Bool.false_eq_true, if_false]
        split_ifs with hgt
        · constructor
          · intro h
            exact absurd h (by simp)
          · rintro ⟨-, hle⟩
            exact absurd (size_check_iff sizeBytes |>.mp hgt) (by omega)
        · rw [size_check_iff] at hgt
          simp only [true_and]
          constructor
          · intro _
            omega
          · intro _
            trivial
  have hstart : handleFile name sizeBytes = UploadOutcome.started ↔
      validateFile name sizeBytes = none := by
    unfold handleFile
    cases hv : validateFile name sizeBytes <;> simp [hv]
  have hrejected : ∀ m, handleFile name sizeBytes = UploadOutcome.rejected m ↔
      validateFile name sizeBytes = some m := by
    intro m
    unfold handleFile
    cases hv : validateFile name sizeBytes <;> simp [hv]
  have hext : acceptedFormats.contains (fileExtension "video.mp4") = true := by decide
  have hboundary : validateFile "video.mp4" 524288000 = none := by
    unfold validateFile
    rw [hext]
    simp only [Bool.not_true, Bool.false_eq_true, if_false]
    rw [if_neg ((not_congr (size_check_iff 524288000)).mpr (by omega))]
  exact ⟨hmain, hstart, hrejected, hboundary⟩

/-- C8 counterexample: with no custom-model score available, the quoted
deep-vision code returns the CLIP score scaled by 0.85, not the CLIP
score itself; at CLIP score 1 the sub-score is 17/20. -/
theorem combine_fallback_cex :
    combineNsfw 0 0 1 = 17 / 20 ∧ combineNsfw 0 0 1 ≠ 1 := by
  have h : combineNsfw 0 0 1 = 17 / 20 := by
    unfold combineNsfw
    rw [if_neg (by norm_num)]
    norm_num
  refine ⟨h, ?_⟩
  rw [h]
  norm_num

/-- C8 (amended): when either custom-model score is positive the nsfw
sub-score is the blend of 70 percent custom and 30 percent CLIP, with
the weights appearing as the literal constants 0.7 and 0.3 in the
quoted deep-vision code; when neither custom score is positive the
sub-score is 0.85 times the CLIP score. -/
theorem combine_weights_correct :
    ∀ nc vc clip : ℚ,
      (0 < nc ∨ 0 < vc → combineNsfw nc vc clip = nc * (7 / 10) + clip * (3 / 10)) ∧
      (nc ≤ 0 → vc ≤ 0 → combineNsfw nc vc clip = clip * (17 / 20)) := by
  intro nc vc clip
  constructor
  · intro h
    unfold combineNsfw
    rw [if_pos h]
  · intro h1 h2
    unfold combineNsfw
    rw [if_neg (by push_neg; exact ⟨h1, h2⟩)]

/-- Witness for the amended C8 theorem at concrete scores. -/
theorem combine_weights_witness :
    combineNsfw (1 / 2) 0 (1 / 4) = (1 / 2) * (7 / 10) + (1 / 4) * (3 / 10) ∧
    combineNsfw 0 0 (1 / 4) = (1 / 4) * (17 / 20) :=
  ⟨(combine_weights_correct (1 / 2) 0 (1 / 4)).1 (Or.inl (by norm_num)),
   (combine_weights_correct 0 0 (1 / 4)).2 (by norm_num) (by norm_num)⟩

theorem decisionEngine_status_ne (cfg : Config) (now : ℕ) (r : VideoRecord) :
    (decisionEngine cfg now r).record.status ≠ Status.uploaded ∧
    (decisionEngine cfg now r).record.status ≠ Status.screened := by
  have hst : (decisionEngine cfg now r).record.status
      = statusOfDecision (decideScore (finalScoreOf cfg r)) := rfl
  rw [hst]
  rcases statusOfDecision_decideScore (finalScoreOf cfg r) with h1 | h1 | h1 <;>
    rw [h1] <;> exact ⟨by simp, by simp⟩

theorem retryScore_all_none (scorer : ℕ → Option ℚ) :
    ∀ n, (∀ i, i < n → scorer i = none) → retryScore scorer n = none := by
  intro n
  induction n with
  | zero => intro _; rfl
  | succ m ih =>
      intro h
      unfold retryScore
      rw [ih (fun i hi => h i (Nat.lt_succ_of_lt hi))]
      exact h m (Nat.lt_succ_self m)

theorem fastScreenWorker_discard (cfg : Config) (scorer : ℕ → Option ℚ)
    (limit now : ℕ) (r : VideoRecord) (h : r.status ≠ Status.uploaded) :
    fastScreenWorker cfg scorer limit now r = noopResult r := by
  unfold fastScreenWorker
  rw [if_neg h]

theorem deepAnalysisWorker_discard (cfg : Config)
    (nsfwScorer violenceScorer : ℕ → Option ℚ) (limit frames now : ℕ)
    (r : VideoRecord) (h : r.status ≠ Status.screened) :
    deepAnalysisWorker cfg nsfwScorer violenceScorer limit frames now r = noopResult r := by
  unfold deepAnalysisWorker
  rw [if_neg h]

theorem fastScreenWorker_status_advances (cfg : Config) (scorer : ℕ → Option ℚ)
    (limit now : ℕ) (r : VideoRecord) (h : r.status = Status.uploaded) :
    (fastScreenWorker cfg scorer limit now r).record.status ≠ Status.uploaded := by
  unfold fastScreenWorker
  rw [if_pos h]
  cases hs : retryScore scorer limit with
  | none => exact fun hc => nomatch hc
  | some s =>
      dsimp only
      split_ifs with hc
      · exact (decisionEngine_status_ne cfg now (screenedRecord r (clamp01 s) now)).1
      · exact fun hcon => nomatch hcon

theorem deepAnalysisWorker_status_advances (cfg : Config)
    (nsfwScorer violenceScorer : ℕ → Option ℚ) (limit frames now : ℕ)
    (r : VideoRecord) (h : r.status = Status.screened) :
    (deepAnalysisWorker cfg nsfwScorer violenceScorer limit frames now r).record.status
      ≠ Status.screened := by
  unfold deepAnalysisWorker
  rw [if_pos h]
  cases hn : retryScore nsfwScorer limit with
  | none => exact fun hc => nomatch hc
  | some ns =>
      cases hv : retryScore violenceScorer limit with
      | none => exact fun hc => nomatch hc
      | some vs =>
          exact (decisionEngine_status_ne cfg now (analyzedRecord r ns vs frames now)).2

/-- C2: a record processed by Fast Screening whose scorer yields risk at
most 0.3 publishes no escalation message and invokes the Decision
Engine directly; a risk above 0.3 publishes exactly one escalation
message and does not invoke the Decision Engine. -/
theorem escalation_gate_correct :
    ∀ (cfg : Config) (scorer : ℕ → Option ℚ) (limit now : ℕ) (r : VideoRecord) (s : ℚ),
      r.status = Status.uploaded → retryScore scorer limit = some s →
      (clamp01 s ≤ 3 / 10 →
        (fastScreenWorker cfg scorer limit now r).escalated = [] ∧
        (fastScreenWorker cfg scorer limit now r).decisionInvoked = true) ∧
      (3 / 10 < clamp01 s →
        (fastScreenWorker cfg scorer limit now r).escalated = [r.id] ∧
        (fastScreenWorker cfg scorer limit now r).decisionInvoked = false) := by
  intro cfg scorer limit now r s hst hs
  unfold fastScreenWorker
  rw [if_pos hst, hs]
  dsimp only
  constructor
  · intro hle
    rw [if_pos hle]
    exact ⟨rfl, rfl⟩
  · intro hgt
    rw [if_neg (not_le.mpr hgt)]
    exact ⟨rfl, rfl⟩

/-- Witness for the escalation-gate theorem: risk 0.1 skips the
escalation queue, risk 0.5 publishes one escalation message. -/
theorem escalation_gate_witness :
    ((fastScreenWorker cfg0 (fun _ => some (1 / 10)) 3 11 rec0).escalated = [] ∧
      (fastScreenWorker cfg0 (fun _ => some (1 / 10)) 3 11 rec0).decisionInvoked = true) ∧
    ((fastScreenWorker cfg0 (fun _ => some (1 / 2)) 3 11 rec0).escalated = [rec0.id] ∧
      (fastScreenWorker cfg0 (fun _ => some (1 / 2)) 3 11 rec0).decisionInvoked = false) :=
  ⟨(escalation_gate_correct cfg0 (fun _ => some (1 / 10)) 3 11 rec0 (1 / 10) rfl rfl).1
      (by norm_num [clamp01]),
   (escalation_gate_correct cfg0 (fun _ => some (1 / 2)) 3 11 rec0 (1 / 2) rfl rfl).2
      (by norm_num [clamp01])⟩

/-- C3: SubmitVerdict fails with NotFound on an unknown id and with
InvalidState on a record not awaiting review, mutating nothing in either
failure case; on success it writes the verdict fields, appends one
reviewed event and invokes the Outcome Dispatcher. -/
theorem submitVerdict_spec :
    ∀ (store : List VideoRecord) (vid : ℕ) (approved : Bool) (notes : String) (now : ℕ),
      (store.find? (fun x => x.id == vid) = none →
        submitVerdict store vid approved notes now =
          { store := store, result := Except.error VerdictError.NotFound,
            events := [], dispatched := false }) ∧
      (∀ r, store.find? (fun x => x.id == vid) = some r → r.status ≠ Status.review →
        submitVerdict store vid approved notes now =
          { store := store, result := Except.error VerdictError.InvalidState,
            events := [], dispatched := false }) ∧
      (∀ r, store.find? (fun x => x.id == vid) = some r → r.status = Status.review →
        submitVerdict store vid approved notes now =
          { store := store.map
              (fun x => if x.id == vid then verdictRecord x approved notes now else x),
            result := Except.ok (),
            events := [{ videoId := vid, eventType := "reviewed" }],
            dispatched := true } ∧
        (verdictRecord r approved notes now).decision
          = (if approved then Decision.approve else Decision.reject) ∧
        (verdictRecord r approved notes now).status
          = (if approved then Status.approved else Status.rejected) ∧
        (verdictRecord r approved notes now).humanReviewed = true ∧
        (verdictRecord r approved notes now).reviewerNotes = some notes ∧
        (verdictRecord r approved notes now).reviewedAt = some now) := by
  intro store vid approved notes now
  refine ⟨?_, ?_, ?_⟩
  · intro h
    unfold submitVerdict
    rw [h]
  · intro r hr hst
    unfold submitVerdict
    rw [hr]
    dsimp only
    rw [if_neg hst]
  · intro r hr hst
    refine ⟨?_, rfl, rfl, rfl, rfl, rfl⟩
    unfold submitVerdict
    rw [hr]
    dsimp only
    rw [if_pos hst]

/-- Witness for the SubmitVerdict theorem: approving the single record of
a one-record store awaiting review. -/
theorem submitVerdict_witness :
    submitVerdict store3 3 true "ok" 99 =
      { store := store3.map
          (fun x => if x.id == 3 then verdictRecord x true "ok" 99 else x),
        result := Except.ok (),
        events := [{ videoId := 3, eventType := "reviewed" }],
        dispatched := true } ∧
    (verdictRecord recReview true "ok" 99).decision
      = (if true then Decision.approve else Decision.reject) ∧
    (verdictRecord recReview true "ok" 99).status
      = (if true then Status.approved else Status.rejected) ∧
    (verdictRecord recReview true "ok" 99).humanReviewed = true ∧
    (verdictRecord recReview true "ok" 99).reviewerNotes = some "ok" ∧
    (verdictRecord recReview true "ok" 99).reviewedAt = some 99 :=
  (submitVerdict_spec store3 3 true "ok" 99).2.2 recReview rfl rfl

/-- C4: delivering the same message twice with no other interleaving
makes the second delivery an acknowledged no-op, for Fast Screening
(precondition status uploaded) and for Deep Analysis (precondition
status screened) alike. -/
theorem duplicate_delivery_idempotent :
    ∀ (cfg cfg2 : Config) (scorer scorer2 nsc nsc2 vsc vsc2 : ℕ → Option ℚ)
      (limit limit2 frames frames2 now now2 : ℕ) (r : VideoRecord),
      (r.status = Status.uploaded →
        fastScreenWorker cfg2 scorer2 limit2 now2
            ((fastScreenWorker cfg scorer limit now r).record) =
          noopResult ((fastScreenWorker cfg scorer limit now r).record)) ∧
      (r.status = Status.screened →
        deepAnalysisWorker cfg2 nsc2 vsc2 limit2 frames2 now2
            ((deepAnalysisWorker cfg nsc vsc limit frames now r).record) =
          noopResult ((deepAnalysisWorker cfg nsc vsc limit frames now r).record)) := by
  intro cfg cfg2 scorer scorer2 nsc nsc2 vsc vsc2 limit limit2 frames frames2 now now2 r
  constructor
  · intro h
    exact fastScreenWorker_discard cfg2 scorer2 limit2 now2 _
      (fastScreenWorker_status_advances cfg scorer limit now r h)
  · intro h
    exact deepAnalysisWorker_discard cfg2 nsc2 vsc2 limit2 frames2 now2 _
      (deepAnalysisWorker_status_advances cfg nsc vsc limit frames now r h)

/-- Witness for the duplicate-delivery theorem at concrete records and
scorers. -/
theorem duplicate_delivery_witness :
    fastScreenWorker cfg0 (fun _ => some (1 / 2)) 2 9
        ((fastScreenWorker cfg0 (fun _ => some (1 / 2)) 2 8 rec4).record) =
      noopResult ((fastScreenWorker cfg0 (fun _ => some (1 / 2)) 2 8 rec4).record) ∧
    deepAnalysisWorker cfg0 (fun _ => some (2 / 5)) (fun _ => some (3 / 10)) 2 60 10
        ((deepAnalysisWorker cfg0 (fun _ => some (2 / 5)) (fun _ => some (3 / 10)) 2 60 9 rec4s).record) =
      noopResult ((deepAnalysisWorker cfg0 (fun _ => some (2 / 5)) (fun _ => some (3 / 10)) 2 60 9 rec4s).record) :=
  ⟨(duplicate_delivery_idempotent cfg0 cfg0 (fun _ => some (1 / 2)) (fun _ => some (1 / 2))
      (fun _ => some (2 / 5)) (fun _ => some (2 / 5)) (fun _ => some (3 / 10))
      (fun _ => some (3 / 10)) 2 2 60 60 8 9 rec4).1 rfl,
   (duplicate_delivery_idempotent cfg0 cfg0 (fun _ => some (1 / 2)) (fun _ => some (1 / 2))
      (fun _ => some (2 / 5)) (fun _ => some (2 / 5)) (fun _ => some (3 / 10))
      (fun _ => some (3 / 10)) 2 2 60 60 9 10 rec4s).2 rfl⟩

/-- C5: when only the risk score is present the Decision Engine final
score equals the risk score; concretely, a fresh record screened at
risk 0.10 follows the status path uploaded, screened, approved, with no
escalation message and final score 0.10. -/
theorem low_risk_final_score :
    (∀ (cfg : Config) (r : VideoRecord) (q : ℚ),
        r.nsfwScore = none → r.violenceScore = none → r.riskScore = some q →
        finalScoreOf cfg r = q) ∧
    recLow.status = Status.uploaded ∧
    (screenedRecord recLow (1 / 10) 12).status = Status.screened ∧
    (fastScreenWorker cfg0 (fun _ => some (1 / 10)) 3 12 recLow).record.status
      = Status.approved ∧
    (fastScreenWorker cfg0 (fun _ => some (1 / 10)) 3 12 recLow).escalated = [] ∧
    (fastScreenWorker cfg0 (fun _ => some (1 / 10)) 3 12 recLow).record.finalScore
      = some (1 / 10) := by
  have hval : ∀ (cfg : Config) (r : VideoRecord) (q : ℚ),
      r.nsfwScore = none → r.violenceScore = none → r.riskScore = some q →
      finalScoreOf cfg r = q := by
    intro cfg r q hn hv hr
    unfold finalScoreOf
    rw [hn, hv, hr]
    rfl
  have hretry : retryScore (fun _ => some (1 / 10 : ℚ)) 3 = some (1 / 10) := rfl
  have hclamp : clamp01 (1 / 10 : ℚ) = 1 / 10 := by norm_num [clamp01]
  have hrun : fastScreenWorker cfg0 (fun _ => some (1 / 10)) 3 12 recLow =
      { record := (decisionEngine cfg0 12 (screenedRecord recLow (1 / 10) 12)).record
        events := { videoId := recLow.id, eventType := "screened" } ::
          (decisionEngine cfg0 12 (screenedRecord recLow (1 / 10) 12)).events
        escalated := [], decisionInvoked := true,
        dispatched := (decisionEngine cfg0 12 (screenedRecord recLow (1 / 10) 12)).dispatched,
        acked := true } := by
    unfold fastScreenWorker
    rw [if_pos (show recLow.status = Status.uploaded from rfl), hretry]
    dsimp only
    rw [hclamp, if_pos (by norm_num : (1 : ℚ) / 10 ≤ 3 / 10)]
  have hfs : finalScoreOf cfg0 (screenedRecord recLow (1 / 10) 12) = 1 / 10 :=
    hval cfg0 _ _ rfl rfl rfl
  have hd : decideScore (1 / 10 : ℚ) = Decision.approve := by
    unfold decideScore
    rw [if_pos (by norm_num)]
  refine ⟨hval, rfl, rfl, ?_, ?_, ?_⟩
  · rw [hrun]
    show statusOfDecision (decideScore (finalScoreOf cfg0 (screenedRecord recLow (1 / 10) 12)))
      = Status.approved
    rw [hfs, hd]
    rfl
  · rw [hrun]
  · rw [hrun]
    show some (finalScoreOf cfg0 (screenedRecord recLow (1 / 10) 12)) = some (1 / 10)
    rw [hfs]

/-- Witness for the only-risk-present clause of the low-risk theorem. -/
theorem low_risk_witness : finalScoreOf cfg0 recW5 = 3 / 20 :=
  low_risk_final_score.1 cfg0 recW5 (3 / 20) rfl rfl rfl

/-- C7: when the scorer fails on every attempt up to the retry limit the
record is marked failed with the error recorded, exactly one
failed-type event is appended, and the message is acknowledged; the
worker returns normally (it is a total function, so no exception
escapes it). -/
theorem scorer_retry_exhaustion_failed :
    ∀ (cfg : Config) (scorer : ℕ → Option ℚ) (limit now : ℕ) (r : VideoRecord),
      r.status = Status.uploaded → (∀ i, i < limit → scorer i = none) →
      (fastScreenWorker cfg scorer limit now r).record.status = Status.failed ∧
      (fastScreenWorker cfg scorer limit now r).record.errorMsg = some "scorer failure" ∧
      (fastScreenWorker cfg scorer limit now r).events
        = [{ videoId := r.id, eventType := "screening_failed" }] ∧
      ((fastScreenWorker cfg scorer limit now r).events.filter
        (fun e => e.eventType == "screening_failed")).length = 1 ∧
      (fastScreenWorker cfg scorer limit now r).acked = true := by
  intro cfg scorer limit now r hst hfail
  have hr : retryScore scorer limit = none := retryScore_all_none scorer limit hfail
  unfold fastScreenWorker
  rw [if_pos hst, hr]
  exact ⟨rfl, rfl, rfl, rfl, rfl⟩

/-- Witness for the retry-exhaustion theorem with a scorer that always
fails and retry limit two. -/
theorem scorer_retry_witness :
    (fastScreenWorker cfg0 (fun _ => none) 2 5 rec7).record.status = Status.failed ∧
    (fastScreenWorker cfg0 (fun _ => none) 2 5 rec7).record.errorMsg = some "scorer failure" ∧
    (fastScreenWorker cfg0 (fun _ => none) 2 5 rec7).events
      = [{ videoId := rec7.id, eventType := "screening_failed" }] ∧
    ((fastScreenWorker cfg0 (fun _ => none) 2 5 rec7).events.filter
      (fun e => e.eventType == "screening_failed")).length = 1 ∧
    (fastScreenWorker cfg0 (fun _ => none) 2 5 rec7).acked = true :=
  scorer_retry_exhaustion_failed cfg0 (fun _ => none) 2 5 rec7 rfl (fun _ _ => rfl)

end Guardian
